import Mathlib

/-!
Shallow embedding of the Retail-Assistant workflow core
(src/app/agents/workflow.py, query_agent.py, validation_agent.py,
src/app/services/catalog_service.py) and proofs about the claims of the
natural-language specification.

External collaborators (generation backend, relational engine, schema
store, ingestion, summarizer) are modelled as explicit environment
records of functions returning `Except String` values: `.error e`
stands for a raised Python exception whose `str()` is `e`.  Python
string truthiness (`if s:`) is modelled by `truthy` on `Option String`
(absent / `None` and the empty string are falsy).  Python textual
rendering `str(rows)` is abstracted by the deterministic `pyStrRows`;
only which prefix of the rows is rendered matters to the claims.
-/

namespace RetailAssistant

/-! Kernel-computable models of the Python string operations the code uses
(`str.strip`, `str.upper`, `str.startswith`, `str.split`, `str.replace`,
`str.join`).  They are structurally recursive over the character list so
that concrete runs evaluate inside the kernel. -/

/-- Python whitespace for `str.strip()`. -/
def pyIsSpace (c : Char) : Bool :=
  c == ' ' || c == '\t' || c == '\n' || c == '\r' || c == '\x0b' || c == '\x0c'

/-- Python `s.strip()`. -/
def pyStrip (s : String) : String :=
  ⟨((s.data.dropWhile pyIsSpace).reverse.dropWhile pyIsSpace).reverse⟩

/-- Python `s.upper()`. -/
def pyUpper (s : String) : String :=
  ⟨s.data.map Char.toUpper⟩

/-- Python `s.startswith(pre)`. -/
def pyStartsWith (s pre : String) : Bool :=
  pre.data.isPrefixOf s.data

/-- Helper for `pySplitChar`: split a character list at a separator. -/
def pySplitCharAux (sep : Char) : List Char → List Char → List String
  | [], acc => [⟨acc.reverse⟩]
  | c :: rest, acc =>
    if c == sep then ⟨acc.reverse⟩ :: pySplitCharAux sep rest []
    else pySplitCharAux sep rest (c :: acc)

/-- Python `s.split(sep)` for a one-character separator (the only kind the
code uses: newline, comma, dash). -/
def pySplitChar (sep : Char) (s : String) : List String :=
  pySplitCharAux sep s.data []

/-- Python `s.replace(a, b)` for one-character patterns. -/
def pyReplaceChar (a b : Char) (s : String) : String :=
  ⟨s.data.map (fun c => if c == a then b else c)⟩

/-- Python `sep.join(parts)`. -/
def pyJoin (sep : String) : List String → String
  | [] => ""
  | [x] => x
  | x :: y :: xs => x ++ sep ++ pyJoin sep (y :: xs)

/-- A query-result row: a Python dict rendered as column/value pairs. -/
abbrev Row := List (String × String)

/-- Deterministic stand-in for the Python `str()` of one result dict. -/
def pyStrRow (r : Row) : String :=
  "\x7b" ++ pyJoin ", " (r.map (fun kv => kv.1 ++ ": " ++ kv.2)) ++ "\x7d"

/-- Deterministic stand-in for the Python `str()` of a list of result dicts. -/
def pyStrRows (rs : List Row) : String :=
  "[" ++ pyJoin ", " (rs.map pyStrRow) ++ "]"

/-- Python truthiness of an optional string: `None` and `""` are falsy. -/
def truthy : Option String → Bool
  | none => false
  | some s => !(s == "")

/-- CSVMetadata (src/app/models/schemas.py); `created_at` is omitted as it
never reaches the workflow logic, `column_types` keeps dict insertion order
as an association list. -/
structure CSVMetadata where
  file_name : String
  file_path : String
  table_name : String
  num_rows : Nat
  num_columns : Nat
  columns : List String
  column_types : List (String × String)
  description : String
  sample_values : List (String × List String)
deriving DecidableEq, Repr

/-- QUERY_GENERATION_PROMPT (src/app/core/prompts.py), with the two
placeholders substituted; punctuation of the literal text simplified. -/
def QUERY_GENERATION_PROMPT (table_schemas user_question : String) : String :=
  "You are a SQL expert. Generate a DuckDB SQL query to answer the user question.\n\n" ++
  "Available Tables:\n" ++ table_schemas ++ "\n\n" ++
  "User Question: " ++ user_question ++ "\n\n" ++
  "Generate ONLY the SQL query without any explanation. The query should:\n" ++
  "1. Be syntactically correct for DuckDB\n" ++
  "2. Answer the user question accurately\n" ++
  "3. Use appropriate aggregations and filters\n" ++
  "4. Return results in a clear format\n\nSQL Query:"

/-- VALIDATION_PROMPT (src/app/core/prompts.py) with placeholders substituted. -/
def VALIDATION_PROMPT (user_question sql_query results : String) : String :=
  "You are a data validation expert. Review the SQL query results and determine if they correctly answer the user question.\n\n" ++
  "User Question: " ++ user_question ++ "\n" ++
  "SQL Query: " ++ sql_query ++ "\n" ++
  "Query Results:\n" ++ results ++ "\n\n" ++
  "Evaluate:\n1. Does the result answer the question?\n2. Is the data format appropriate?\n3. Are there any errors or anomalies?\n\n" ++
  "If valid, respond with: VALID\nIf invalid, respond with: INVALID - [brief reason]"

/-- The inline synthesis prompt of QueryAgent.synthesize_answer
(src/app/agents/query_agent.py lines 142-151). -/
def SYNTHESIS_PROMPT (user_question sql_query results : String) : String :=
  "Based on the following query results, provide a clear and concise answer to the user question.\n\n" ++
  "User Question: " ++ user_question ++ "\n\n" ++
  "SQL Query: " ++ sql_query ++ "\n\n" ++
  "Results:\n" ++ results ++ "\n\n" ++
  "Provide a natural language answer that directly addresses the question. Include specific numbers and insights from the results."

/-- QueryAgent._format_schemas: one column rendered as `name (dtype)`. -/
def formatColumns (column_types : List (String × String)) : String :=
  pyJoin ", " (column_types.map (fun ct => ct.1 ++ " (" ++ ct.2 ++ ")"))

/-- QueryAgent._format_schemas (src/app/agents/query_agent.py lines 102-116). -/
def formatSchemas (table_schemas : List (String × CSVMetadata)) : String :=
  pyJoin "\n\n" (table_schemas.map (fun tm =>
    "Table: " ++ tm.1 ++ "\n" ++
    "Description: " ++ tm.2.description ++ "\n" ++
    "Columns: " ++ formatColumns tm.2.column_types ++ "\n" ++
    "Row count: " ++ toString tm.2.num_rows))

/-- Markdown code-fence cleanup in QueryAgent._generate_sql (lines 85-94).
The Python code indexes `lines[-1]` after possibly dropping the first line;
on input consisting of a single fence line this raises IndexError
(message `list index out of range`), which the surrounding handler re-raises. -/
def cleanSql (raw : String) : Except String String :=
  let sql := pyStrip raw
  if pyStartsWith sql "```" then
    let lines := pySplitChar '\n' sql
    let lines := if pyStartsWith (pyStrip (lines.headD "")) "```" then lines.tail else lines
    match lines.getLast? with
    | none => .error "list index out of range"
    | some last =>
      let lines2 := if pyStrip last == "```" then lines.dropLast else lines
      .ok (pyStrip (pyJoin "\n" lines2))
  else .ok sql

/-- Environment of one QueryAgent.generate_and_execute_query call: the
generation backend and the relational engine, indexed by attempt number
(each attempt is a fresh external call). -/
structure QueryEnv where
  gen : Nat → String → Except String String
  exec : Nat → String → Except String (List Row)

/-- The error-context paragraph appended to the generation prompt when an
error context is truthy (QueryAgent._generate_sql lines 80-81). -/
def errorContextSuffix (err : String) : String :=
  "\n\nIMPORTANT: The previous query failed with this error:\n" ++ err ++
  "\nPlease correct the SQL to fix this error. Ensure accurate column names and data types."

/-- The full generation prompt of one attempt: base prompt plus the error
context paragraph when the context is truthy (`if error_context:`). -/
def buildQueryPrompt (user_question : String) (table_schemas : List (String × CSVMetadata))
    (error_context : Option String) : String :=
  let base := QUERY_GENERATION_PROMPT (formatSchemas table_schemas) user_question
  if truthy error_context then base ++ errorContextSuffix (error_context.getD "") else base

/-- QueryAgent._generate_sql: build the prompt, invoke the backend once,
clean code fences; any backend failure is re-raised. -/
def generateSql (env : QueryEnv) (attempt : Nat) (user_question : String)
    (table_schemas : List (String × CSVMetadata)) (error_context : Option String) :
    Except String String :=
  match env.gen attempt (buildQueryPrompt user_question table_schemas error_context) with
  | .error e => .error e
  | .ok text => cleanSql text

/-- Observable external calls made by the Query Cycle. -/
inductive QEvent where
  | genCall (attempt : Nat) (prompt : String)
  | execCall (attempt : Nat) (sql : String)
deriving DecidableEq, Repr

/-- Number of generation-backend calls in a Query Cycle trace. -/
def countQGen (evs : List QEvent) : Nat :=
  evs.countP (fun e => match e with | .genCall _ _ => true | _ => false)

/-- Number of SQL-execution calls in a Query Cycle trace. -/
def countQExec (evs : List QEvent) : Nat :=
  evs.countP (fun e => match e with | .execCall _ _ => true | _ => false)

/-- One attempt of the Query Cycle: generate SQL, then execute it.
Returns the outcome and the external calls made. -/
def attemptOnce (env : QueryEnv) (attempt : Nat) (user_question : String)
    (table_schemas : List (String × CSVMetadata)) (error_context : Option String) :
    Except String (String × List Row) × List QEvent :=
  let prompt := buildQueryPrompt user_question table_schemas error_context
  match generateSql env attempt user_question table_schemas error_context with
  | .error e => (.error e, [.genCall attempt prompt])
  | .ok sql =>
    match env.exec attempt sql with
    | .ok rows => (.ok (sql, rows), [.genCall attempt prompt, .execCall attempt sql])
    | .error e => (.error e, [.genCall attempt prompt, .execCall attempt sql])

/-- The retry loop of QueryAgent.generate_and_execute_query (lines 35-60):
`current_error = last_error if last_error else error_context` (Python
truthiness), return on first success, re-raise the current error when the
last attempt fails.  `fuel` counts the remaining attempts (3 at the start);
the `fuel = 0` base case is unreachable from the public entry point. -/
def generateAndExecuteAux (env : QueryEnv) (user_question : String)
    (table_schemas : List (String × CSVMetadata)) (error_context : Option String) :
    Nat → Nat → Option String → Except String (String × List Row) × List QEvent
  | 0, _, lastError => (.error (lastError.getD ""), [])
  | fuel + 1, attempt, lastError =>
    let currentError := if truthy lastError then lastError else error_context
    let r := attemptOnce env attempt user_question table_schemas currentError
    match r.1 with
    | .ok v => (.ok v, r.2)
    | .error e =>
      if fuel == 0 then (.error e, r.2)
      else
        let r2 := generateAndExecuteAux env user_question table_schemas error_context
          fuel (attempt + 1) (some e)
        (r2.1, r.2 ++ r2.2)

/-- QueryAgent.generate_and_execute_query: up to 3 attempts. -/
def generate_and_execute_query (env : QueryEnv) (user_question : String)
    (table_schemas : List (String × CSVMetadata)) (error_context : Option String) :
    Except String (String × List Row) × List QEvent :=
  generateAndExecuteAux env user_question table_schemas error_context 3 0 none

/-- QueryAgent.synthesize_answer (lines 118-159).  Second component: the
prompts actually sent to the generation backend. -/
def synthesize_answer (backend : String → Except String String)
    (user_question sql_query : String) (results : List Row) : String × List String :=
  if results.isEmpty then ("No results found for your query.", [])
  else
    let prompt := SYNTHESIS_PROMPT user_question sql_query (pyStrRows (results.take 10))
    match backend prompt with
    | .ok text => (pyStrip text, [prompt])
    | .error _ =>
      ("Query executed successfully. Results: " ++ pyStrRows (results.take 5), [prompt])

/-- Outcome of ValidationAgent.validate. -/
structure ValidationResult where
  valid : Bool
  reason : String
deriving DecidableEq, Repr

/-- Python `validation_text.split("-", 1)`: the reason is the (trimmed) text
after the first dash, or the whole text when no dash is present. -/
def splitReason (validation_text : String) : String :=
  let parts := pySplitChar '-' validation_text
  if parts.length > 1 then pyStrip (pyJoin "-" parts.tail)
  else validation_text

/-- ValidationAgent.validate (src/app/agents/validation_agent.py lines 22-79).
Results are truncated to the first 5 rows before rendering; any internal
failure is caught and mapped to `valid = true, reason = "Validation Error"`.
Second component: the prompts actually sent to the backend. -/
def validate (backend : String → Except String String)
    (user_question sql_query : String) (results : List Row) :
    ValidationResult × List String :=
  let prompt := VALIDATION_PROMPT user_question sql_query (pyStrRows (results.take 5))
  match backend prompt with
  | .error _ => ({ valid := true, reason := "Validation Error" }, [prompt])
  | .ok text =>
    let validation_text := pyStrip text
    let is_valid := pyStartsWith (pyUpper validation_text) "VALID"
    let reason := if is_valid then "" else splitReason validation_text
    ({ valid := is_valid, reason := reason }, [prompt])

/-- WorkflowState (src/app/agents/workflow.py lines 22-37).  The TypedDict
fields `error` and `validation_error` may be absent or `None` (both
modelled as `none`); `retry_count` defaults to 0 via `state.get`. -/
structure WorkflowState where
  user_input : String
  intent : String
  file_path : String
  session_id : String
  use_kb : Bool
  relevant_tables : List String
  table_schemas : List (String × CSVMetadata)
  sql_query : String
  query_results : List Row
  final_answer : String
  error : Option String
  validation_error : Option String
  retry_count : Nat
deriving DecidableEq, Repr

/-- Observable events of one workflow run: node entries plus the calls into
query_agent.generate_and_execute_query and validation_agent.validate. -/
inductive WEvent where
  | node (name : String)
  | cycleCall
  | validatorCall
  | synthCall
deriving DecidableEq, Repr

/-- Number of Query Cycle invocations recorded in a workflow trace. -/
def countCycle (tr : List WEvent) : Nat :=
  tr.countP (fun e => e == WEvent.cycleCall)

/-- Number of validation_agent.validate invocations recorded in a trace. -/
def countValidator (tr : List WEvent) : Nat :=
  tr.countP (fun e => e == WEvent.validatorCall)

/-- Number of entries of the named workflow node recorded in a trace. -/
def countNode (name : String) (tr : List WEvent) : Nat :=
  tr.countP (fun e => e == WEvent.node name)

/-- Collaborators of one workflow run.  `queryEnv k` / `valBackend k` are the
backends seen by the k-th invocation of the query / validate node (each
invocation issues fresh external calls).  `search` is the outcome of the
Schema Store query inside CatalogService.search_relevant_tables; `selGen`
the table-selection LLM call; `extract` ingestion_service.extract_metadata;
`summarize` summarization_agent.summarize; `synthBackend` the synthesis
backend. -/
structure Env where
  queryEnv : Nat → QueryEnv
  valBackend : Nat → String → Except String String
  synthBackend : String → Except String String
  search : Except String (List CSVMetadata)
  selGen : String → Except String String
  extract : String → String → Except String CSVMetadata
  summarize : String → Except String String

/-- CatalogService.search_relevant_tables (lines 66-97): every internal
exception is caught and the empty list returned. -/
def search_relevant_tables (searchResult : Except String (List CSVMetadata)) :
    List CSVMetadata :=
  match searchResult with
  | .ok l => l
  | .error _ => []

/-- Strip the comma-separated LLM selection: trim each piece, drop empties
(`[n.strip() for n in response.text.split(",") if n.strip()]`). -/
def parseSelectedNames (text : String) : List String :=
  ((pySplitChar ',' text).map (fun n => pyStrip n)).filter (fun n => !(n == ""))

/-- One candidate line of the selection prompt (workflow.py lines 140-143). -/
def candidateLine (c : CSVMetadata) : String :=
  "- Table: " ++ c.table_name ++ ", Columns: " ++ pyJoin ", " c.columns ++
  ", Desc: " ++ c.description

/-- The table-selection prompt of retrieve_tables_node (lines 145-152);
literal text simplified in punctuation only. -/
def selectionPrompt (user_input : String) (candidates : List CSVMetadata) : String :=
  "You are a database expert. Select the most relevant tables for the user question.\n\n" ++
  "User Question: " ++ user_input ++ "\n\n" ++
  "Candidate Tables:\n" ++ pyJoin "\n" (candidates.map candidateLine) ++ "\n\n" ++
  "Return ONLY the names of the relevant tables, separated by commas. If none are relevant, return nothing."

/-- Python dict insertion: replace an existing key in place, else append. -/
def dictInsert (d : List (String × CSVMetadata)) (k : String) (v : CSVMetadata) :
    List (String × CSVMetadata) :=
  if d.any (fun kv => kv.1 == k) then d.map (fun kv => if kv.1 == k then (k, v) else kv)
  else d ++ [(k, v)]

/-- `{meta.table_name: meta for meta in final_selection}`. -/
def dictOfMetas (ms : List CSVMetadata) : List (String × CSVMetadata) :=
  ms.foldl (fun d m => dictInsert d m.table_name m) []

/-- `f"temp_{safe_session_id}_upload"` with hyphens replaced (lines 173-175). -/
def tempTableName (session_id : String) : String :=
  "temp_" ++ pyReplaceChar '-' '_' session_id ++ "_upload"

/-- retrieve_tables_node (workflow.py lines 123-189). -/
def retrieve_tables_node (env : Env) (s : WorkflowState) : WorkflowState × List WEvent :=
  if s.use_kb then
    let candidates := search_relevant_tables env.search
    if candidates.isEmpty then
      ({ s with error := some "No relevant tables found in knowledge base" },
       [WEvent.node "retrieve_tables"])
    else
      match env.selGen (selectionPrompt s.user_input candidates) with
      | .error e => ({ s with error := some e }, [WEvent.node "retrieve_tables"])
      | .ok text =>
        let selected_names := parseSelectedNames text
        let filtered := candidates.filter (fun c => selected_names.contains c.table_name)
        let final_selection :=
          if filtered.isEmpty && !candidates.isEmpty then candidates.take 3 else filtered
        let table_schemas := dictOfMetas final_selection
        ({ s with table_schemas := table_schemas,
                  relevant_tables := table_schemas.map (fun kv => kv.1) },
         [WEvent.node "retrieve_tables"])
  else
    match env.extract s.file_path (tempTableName s.session_id) with
    | .ok meta =>
      ({ s with table_schemas := [(meta.table_name, meta)],
                relevant_tables := [meta.table_name] },
       [WEvent.node "retrieve_tables"])
    | .error e => ({ s with error := some e }, [WEvent.node "retrieve_tables"])

/-- query_node (workflow.py lines 52-90).  Note: it does not inspect
`state["error"]`; it only guards on empty `table_schemas`. -/
def query_node (qe : QueryEnv) (s : WorkflowState) : WorkflowState × List WEvent :=
  if s.table_schemas.isEmpty then
    ({ s with error := some "No tables available for querying" }, [WEvent.node "query"])
  else
    match (generate_and_execute_query qe s.user_input s.table_schemas s.validation_error).1 with
    | .ok v =>
      ({ s with sql_query := v.1, query_results := v.2 },
       [WEvent.node "query", WEvent.cycleCall])
    | .error e =>
      ({ s with error := some e }, [WEvent.node "query", WEvent.cycleCall])

/-- validate_node (workflow.py lines 93-120): pass through when the error
field is truthy; otherwise run the validator, clearing
`validation_error` on a valid result and setting it plus incrementing
`retry_count` on an invalid one. -/
def validate_node (backend : String → Except String String) (s : WorkflowState) :
    WorkflowState × List WEvent :=
  if truthy s.error then (s, [WEvent.node "validate"])
  else
    let v := (validate backend s.user_input s.sql_query s.query_results).1
    if v.valid then
      ({ s with validation_error := none }, [WEvent.node "validate", WEvent.validatorCall])
    else
      ({ s with validation_error := some v.reason, retry_count := s.retry_count + 1 },
       [WEvent.node "validate", WEvent.validatorCall])

/-- synthesize_node (workflow.py lines 192-208). -/
def synthesize_node (backend : String → Except String String) (s : WorkflowState) :
    WorkflowState × List WEvent :=
  if truthy s.error then (s, [WEvent.node "synthesize"])
  else
    let a := (synthesize_answer backend s.user_input s.sql_query s.query_results).1
    ({ s with final_answer := a }, [WEvent.node "synthesize", WEvent.synthCall])

/-- summarize_node (workflow.py lines 40-49). -/
def summarize_node (env : Env) (s : WorkflowState) : WorkflowState × List WEvent :=
  match env.summarize s.file_path with
  | .ok summary => ({ s with final_answer := summary }, [WEvent.node "summarize"])
  | .error e => ({ s with error := some e }, [WEvent.node "summarize"])

/-- route_intent (workflow.py lines 211-216). -/
def route_intent (s : WorkflowState) : String :=
  if s.intent == "summarize" then "summarize" else "query"

/-- check_validation (workflow.py lines 219-223): retry when
`validation_error` is truthy and `retry_count < 3`. -/
def check_validation (s : WorkflowState) : String :=
  if truthy s.validation_error ∧ s.retry_count < 3 then "retry" else "end"

/-- The query/validate loop of the compiled graph (edges of workflow.py
lines 246-256): query then validate, then either back to query or on to
synthesize.  `fuel` bounds the number of iterations so that runs the graph
would iterate forever (until LangGraph aborts on its recursion limit) are
`none`; `k` numbers the query/validate invocations. -/
def stepLoop (env : Env) : Nat → Nat → WorkflowState → Option (WorkflowState × List WEvent)
  | 0, _, _ => none
  | fuel + 1, k, s =>
    let q := query_node (env.queryEnv k) s
    let v := validate_node (env.valBackend k) q.1
    if check_validation v.1 == "retry" then
      match stepLoop env fuel (k + 1) v.1 with
      | none => none
      | some r => some (r.1, q.2 ++ v.2 ++ r.2)
    else
      let syn := synthesize_node env.synthBackend v.1
      some (syn.1, q.2 ++ v.2 ++ syn.2)

/-- One full workflow run (conditional entry of workflow.py lines 237-243
plus the loop): Summarize short-circuits; Query goes through table
retrieval into the query/validate loop. -/
def runWorkflow (env : Env) (fuel : Nat) (s0 : WorkflowState) :
    Option (WorkflowState × List WEvent) :=
  if route_intent s0 == "summarize" then
    let r := summarize_node env s0
    some (r.1, r.2)
  else
    let r1 := retrieve_tables_node env s0
    match stepLoop env fuel 0 r1.1 with
    | none => none
    | some r => some (r.1, r1.2 ++ r.2)

/-! Helper lemmas about the error texts of the Query Cycle. -/

theorem cleanSql_error_eq : ∀ raw e, cleanSql raw = .error e → e = "list index out of range" := by
  intro raw e h
  simp only [cleanSql] at h
  split at h
  · split at h
    · exact (Except.error.injEq _ _).mp h |>.symm
    · exact absurd h (by simp)
  · exact absurd h (by simp)

theorem generateSql_error_cases (env : QueryEnv) (a : Nat) (q : String)
    (sch : List (String × CSVMetadata)) (c : Option String) (e : String)
    (h : generateSql env a q sch c = .error e) :
    env.gen a (buildQueryPrompt q sch c) = .error e ∨ e = "list index out of range" := by
  unfold generateSql at h
  cases hg : env.gen a (buildQueryPrompt q sch c) with
  | error e2 =>
    rw [hg] at h
    simp only [Except.error.injEq] at h
    subst h
    exact Or.inl rfl
  | ok t =>
    rw [hg] at h
    exact Or.inr (cleanSql_error_eq t e h)

theorem attemptOnce_fst_error (env : QueryEnv) (a : Nat) (q : String)
    (sch : List (String × CSVMetadata)) (c : Option String) (e : String)
    (h : (attemptOnce env a q sch c).1 = .error e) :
    (∃ p, env.gen a p = .error e) ∨ e = "list index out of range" ∨
      (∃ sql, env.exec a sql = .error e) := by
  cases hg : generateSql env a q sch c with
  | error e2 =>
    have h2 : e2 = e := by simpa [attemptOnce, hg] using h
    subst h2
    rcases generateSql_error_cases env a q sch c e2 hg with hgen | hlit
    · exact Or.inl ⟨buildQueryPrompt q sch c, hgen⟩
    · exact Or.inr (Or.inl hlit)
  | ok sql =>
    cases hx : env.exec a sql with
    | ok rows => exact absurd h (by simp [attemptOnce, hg, hx])
    | error e2 =>
      have h2 : e2 = e := by simpa [attemptOnce, hg, hx] using h
      subst h2
      exact Or.inr (Or.inr ⟨sql, hx⟩)

theorem attemptOnce_error_ne (env : QueryEnv) (a : Nat) (q : String)
    (sch : List (String × CSVMetadata)) (c : Option String) (e : String)
    (hg : ∀ a2 p e2, env.gen a2 p = .error e2 → e2 ≠ "")
    (hx : ∀ a2 sql e2, env.exec a2 sql = .error e2 → e2 ≠ "")
    (h : (attemptOnce env a q sch c).1 = .error e) : e ≠ "" := by
  rcases attemptOnce_fst_error env a q sch c e h with ⟨p, hp⟩ | he | ⟨sql, hs⟩
  · exact hg a p e hp
  · subst he; decide
  · exact hx a sql e hs

/-- `truthy none` reduces to false (used while unfolding the cycle). -/
theorem truthy_none : truthy none = false := rfl

/-- Path lemma: first attempt succeeds. -/
theorem cycle_ok0 (env : QueryEnv) (q : String) (sch : List (String × CSVMetadata))
    (ec : Option String) (v : String × List Row)
    (h0 : (attemptOnce env 0 q sch ec).1 = .ok v) :
    generate_and_execute_query env q sch ec = (.ok v, (attemptOnce env 0 q sch ec).2) := by
  simp [generate_and_execute_query, generateAndExecuteAux, truthy_none, h0]

/-- Path lemma: attempt 1 fails, attempt 2 succeeds.  The error context of
the second attempt is the first execution error when truthy, else the
external feedback. -/
theorem cycle_ok1 (env : QueryEnv) (q : String) (sch : List (String × CSVMetadata))
    (ec : Option String) (e1 : String) (v : String × List Row)
    (h0 : (attemptOnce env 0 q sch ec).1 = .error e1)
    (h1 : (attemptOnce env 1 q sch (if truthy (some e1) then some e1 else ec)).1 = .ok v) :
    generate_and_execute_query env q sch ec =
      (.ok v, (attemptOnce env 0 q sch ec).2 ++
        (attemptOnce env 1 q sch (if truthy (some e1) then some e1 else ec)).2) := by
  simp [generate_and_execute_query, generateAndExecuteAux, truthy_none, h0, h1]

/-- Path lemma: attempts 1 and 2 fail, attempt 3 succeeds. -/
theorem cycle_ok2 (env : QueryEnv) (q : String) (sch : List (String × CSVMetadata))
    (ec : Option String) (e1 e2 : String) (v : String × List Row)
    (h0 : (attemptOnce env 0 q sch ec).1 = .error e1)
    (h1 : (attemptOnce env 1 q sch (if truthy (some e1) then some e1 else ec)).1 = .error e2)
    (h2 : (attemptOnce env 2 q sch (if truthy (some e2) then some e2 else ec)).1 = .ok v) :
    generate_and_execute_query env q sch ec =
      (.ok v, (attemptOnce env 0 q sch ec).2 ++
        ((attemptOnce env 1 q sch (if truthy (some e1) then some e1 else ec)).2 ++
          (attemptOnce env 2 q sch (if truthy (some e2) then some e2 else ec)).2)) := by
  simp [generate_and_execute_query, generateAndExecuteAux, truthy_none, h0, h1, h2]

/-- Path lemma: all three attempts fail; the third error is re-raised. -/
theorem cycle_err (env : QueryEnv) (q : String) (sch : List (String × CSVMetadata))
    (ec : Option String) (e1 e2 e3 : String)
    (h0 : (attemptOnce env 0 q sch ec).1 = .error e1)
    (h1 : (attemptOnce env 1 q sch (if truthy (some e1) then some e1 else ec)).1 = .error e2)
    (h2 : (attemptOnce env 2 q sch (if truthy (some e2) then some e2 else ec)).1 = .error e3) :
    generate_and_execute_query env q sch ec =
      (.error e3, (attemptOnce env 0 q sch ec).2 ++
        ((attemptOnce env 1 q sch (if truthy (some e1) then some e1 else ec)).2 ++
          (attemptOnce env 2 q sch (if truthy (some e2) then some e2 else ec)).2)) := by
  simp [generate_and_execute_query, generateAndExecuteAux, truthy_none, h0, h1, h2]

/-- Any error reported by the whole cycle is a nonempty text whenever the
backend and the engine only report nonempty error texts. -/
theorem cycle_fst_error_ne (env : QueryEnv) (q : String)
    (sch : List (String × CSVMetadata)) (ec : Option String) (e : String)
    (hg : ∀ a2 p e2, env.gen a2 p = .error e2 → e2 ≠ "")
    (hx : ∀ a2 sql e2, env.exec a2 sql = .error e2 → e2 ≠ "")
    (h : (generate_and_execute_query env q sch ec).1 = .error e) : e ≠ "" := by
  cases hr0 : (attemptOnce env 0 q sch ec).1 with
  | ok v => rw [cycle_ok0 env q sch ec v hr0] at h; exact absurd h (by simp)
  | error e1 =>
    cases hr1 : (attemptOnce env 1 q sch (if truthy (some e1) then some e1 else ec)).1 with
    | ok v => rw [cycle_ok1 env q sch ec e1 v hr0 hr1] at h; exact absurd h (by simp)
    | error e2 =>
      cases hr2 : (attemptOnce env 2 q sch (if truthy (some e2) then some e2 else ec)).1 with
      | ok v => rw [cycle_ok2 env q sch ec e1 e2 v hr0 hr1 hr2] at h; exact absurd h (by simp)
      | error e3 =>
        rw [cycle_err env q sch ec e1 e2 e3 hr0 hr1 hr2] at h
        have h3 : e3 = e := by simpa using h
        subst h3
        exact attemptOnce_error_ne env 2 q sch _ e3 hg hx hr2

/-! Characterizations of the workflow nodes. -/

theorem query_node_empty_char (qe : QueryEnv) (s : WorkflowState)
    (h : s.table_schemas.isEmpty = true) :
    query_node qe s =
      ({ s with error := some "No tables available for querying" }, [WEvent.node "query"]) := by
  simp [query_node, h]

theorem query_node_ok_char (qe : QueryEnv) (s : WorkflowState) (v : String × List Row)
    (h : s.table_schemas.isEmpty = false)
    (hcy : (generate_and_execute_query qe s.user_input s.table_schemas s.validation_error).1
      = .ok v) :
    query_node qe s =
      ({ s with sql_query := v.1, query_results := v.2 },
       [WEvent.node "query", WEvent.cycleCall]) := by
  simp [query_node, h, hcy]

theorem query_node_err_char (qe : QueryEnv) (s : WorkflowState) (e : String)
    (h : s.table_schemas.isEmpty = false)
    (hcy : (generate_and_execute_query qe s.user_input s.table_schemas s.validation_error).1
      = .error e) :
    query_node qe s =
      ({ s with error := some e }, [WEvent.node "query", WEvent.cycleCall]) := by
  simp [query_node, h, hcy]

theorem validate_node_pass (b : String → Except String String) (s : WorkflowState)
    (h : truthy s.error = true) :
    validate_node b s = (s, [WEvent.node "validate"]) := by
  simp [validate_node, h]

theorem validate_node_valid (b : String → Except String String) (s : WorkflowState)
    (h : truthy s.error = false)
    (hv : (validate b s.user_input s.sql_query s.query_results).1.valid = true) :
    validate_node b s =
      ({ s with validation_error := none }, [WEvent.node "validate", WEvent.validatorCall]) := by
  simp [validate_node, h, hv]

theorem validate_node_invalid (b : String → Except String String) (s : WorkflowState)
    (h : truthy s.error = false)
    (hv : (validate b s.user_input s.sql_query s.query_results).1.valid = false) :
    validate_node b s =
      ({ s with
          validation_error := some (validate b s.user_input s.sql_query s.query_results).1.reason,
          retry_count := s.retry_count + 1 },
       [WEvent.node "validate", WEvent.validatorCall]) := by
  simp [validate_node, h, hv]

theorem validate_node_valid2 (b : String → Except String String) (s : WorkflowState)
    (reason : String) (h : truthy s.error = false)
    (hv : (validate b s.user_input s.sql_query s.query_results).1 = ⟨true, reason⟩) :
    validate_node b s =
      ({ s with validation_error := none }, [WEvent.node "validate", WEvent.validatorCall]) := by
  simp [validate_node, h, hv]

theorem validate_node_invalid2 (b : String → Except String String) (s : WorkflowState)
    (reason : String) (h : truthy s.error = false)
    (hv : (validate b s.user_input s.sql_query s.query_results).1 = ⟨false, reason⟩) :
    validate_node b s =
      ({ s with validation_error := some reason, retry_count := s.retry_count + 1 },
       [WEvent.node "validate", WEvent.validatorCall]) := by
  simp [validate_node, h, hv]

theorem synthesize_node_pass (b : String → Except String String) (s : WorkflowState)
    (h : truthy s.error = true) :
    synthesize_node b s = (s, [WEvent.node "synthesize"]) := by
  simp [synthesize_node, h]

theorem synthesize_node_go (b : String → Except String String) (s : WorkflowState)
    (h : truthy s.error = false) :
    synthesize_node b s =
      ({ s with final_answer := (synthesize_answer b s.user_input s.sql_query s.query_results).1 },
       [WEvent.node "synthesize", WEvent.synthCall]) := by
  simp [synthesize_node, h]

/-- A truthy optional string: present and nonempty. -/
theorem truthy_some_ne (e : String) (h : e ≠ "") : truthy (some e) = true := by
  simp [truthy, h]

/-- Traces concatenate their Query Cycle counts. -/
theorem countCycle_append (a b : List WEvent) :
    countCycle (a ++ b) = countCycle a + countCycle b := by
  simp [countCycle, List.countP_append]

/-- The environment only reports nonempty error texts from the generation
backend and the relational engine (every real raised exception renders to a
nonempty `str(e)`). -/
def QueryErrorsNonempty (env : Env) : Prop :=
  ∀ k, (∀ a p e, (env.queryEnv k).gen a p = .error e → e ≠ "") ∧
       (∀ a sql e, (env.queryEnv k).exec a sql = .error e → e ≠ "")

/-- Once the workflow error field is truthy while a truthy validation error
with remaining retry budget is pending, the loop cycles forever: validate
passes through without clearing the pending feedback, check_validation keeps
answering retry, and no fuel suffices. -/
theorem stepLoop_none_of_error (env : Env) (henv : QueryErrorsNonempty env) :
    ∀ fuel k s, truthy s.error = true → truthy s.validation_error = true →
      s.retry_count < 3 → stepLoop env fuel k s = none := by
  intro fuel
  induction fuel with
  | zero => intro k s _ _ _; rfl
  | succ f ih =>
    intro k s he hv hr
    have hq : truthy (query_node (env.queryEnv k) s).1.error = true ∧
        (query_node (env.queryEnv k) s).1.validation_error = s.validation_error ∧
        (query_node (env.queryEnv k) s).1.retry_count = s.retry_count := by
      cases hts : s.table_schemas.isEmpty with
      | true =>
        rw [query_node_empty_char _ _ hts]
        refine ⟨?_, rfl, rfl⟩
        show truthy (some "No tables available for querying") = true
        decide
      | false =>
        cases hcy : (generate_and_execute_query (env.queryEnv k) s.user_input
            s.table_schemas s.validation_error).1 with
        | ok v => rw [query_node_ok_char _ _ _ hts hcy]; exact ⟨he, rfl, rfl⟩
        | error e =>
          rw [query_node_err_char _ _ _ hts hcy]
          exact ⟨truthy_some_ne e
            (cycle_fst_error_ne _ _ _ _ _ (henv k).1 (henv k).2 hcy), rfl, rfl⟩
    obtain ⟨hqe, hqv, hqr⟩ := hq
    have hv2 := validate_node_pass (env.valBackend k) _ hqe
    have hchk : check_validation (query_node (env.queryEnv k) s).1 = "retry" := by
      unfold check_validation
      rw [hqv, hqr]
      simp [hv, hr]
    have hrec := ih (k + 1) (query_node (env.queryEnv k) s).1 hqe
      (by rw [hqv]; exact hv) (by rw [hqr]; exact hr)
    simp [stepLoop, hv2, hchk, hrec]

/-- check_validation answers retry when the feedback is truthy and the
retry budget is not exhausted. -/
theorem check_validation_pos (s : WorkflowState) (h1 : truthy s.validation_error = true)
    (h2 : s.retry_count < 3) : check_validation s = "retry" := by
  unfold check_validation
  simp [h1, h2]

/-- check_validation answers end otherwise. -/
theorem check_validation_neg (s : WorkflowState)
    (h : ¬(truthy s.validation_error = true ∧ s.retry_count < 3)) :
    check_validation s = "end" := by
  unfold check_validation
  rw [if_neg]
  exact fun hc => h ⟨hc.1, hc.2⟩

/-- Counting step lemmas for traces. -/
theorem countCycle_nil : countCycle [] = 0 := rfl

theorem countCycle_cons_node (nm : String) (l : List WEvent) :
    countCycle (WEvent.node nm :: l) = countCycle l := by
  simp [countCycle, List.countP_cons]

theorem countCycle_cons_cycle (l : List WEvent) :
    countCycle (WEvent.cycleCall :: l) = countCycle l + 1 := by
  simp [countCycle, List.countP_cons]

theorem countCycle_cons_val (l : List WEvent) :
    countCycle (WEvent.validatorCall :: l) = countCycle l := by
  simp [countCycle, List.countP_cons]

theorem countCycle_cons_synth (l : List WEvent) :
    countCycle (WEvent.synthCall :: l) = countCycle l := by
  simp [countCycle, List.countP_cons]

/-- Main accounting lemma for the query/validate loop.  Entering with a
nonempty schema set and a falsy error field, any terminating run makes
`m + 1` Query Cycle invocations where `m` retry transitions were taken,
the retry count grows by `m` plus a final increment `d ≤ 1`, and every
retry was taken with a count below 3. -/
theorem stepLoop_count (env : Env) (henv : QueryErrorsNonempty env) :
    ∀ fuel k s fin tr, s.table_schemas.isEmpty = false → truthy s.error = false →
      stepLoop env fuel k s = some (fin, tr) →
      ∃ m d, d ≤ 1 ∧ fin.retry_count = s.retry_count + m + d ∧
        (m = 0 ∨ s.retry_count + m < 3) ∧ countCycle tr = m + 1 := by
  intro fuel
  induction fuel with
  | zero => intro k s fin tr _ _ h; exact absurd h (by simp [stepLoop])
  | succ f ih =>
    intro k s fin tr hts he hrun
    cases hcy : (generate_and_execute_query (env.queryEnv k) s.user_input
        s.table_schemas s.validation_error).1 with
    | error e =>
      have hq := query_node_err_char (env.queryEnv k) s e hts hcy
      have hne := cycle_fst_error_ne _ _ _ _ _ (henv k).1 (henv k).2 hcy
      have hqe : truthy ({ s with error := some e } : WorkflowState).error = true :=
        truthy_some_ne e hne
      have hv2 := validate_node_pass (env.valBackend k) _ hqe
      by_cases hchk : (truthy s.validation_error = true ∧ s.retry_count < 3)
      · have hnone := stepLoop_none_of_error env henv f (k + 1)
          ({ s with error := some e }) hqe hchk.1 hchk.2
        have hchk2 : check_validation ({ s with error := some e } : WorkflowState)
            = "retry" := check_validation_pos _ hchk.1 hchk.2
        simp [stepLoop, hq, hv2, hchk2, hnone] at hrun
      · have hchk2 : check_validation ({ s with error := some e } : WorkflowState)
            = "end" := check_validation_neg _ hchk
        have hsy := synthesize_node_pass env.synthBackend _ hqe
        simp [stepLoop, hq, hv2, hchk2, hsy] at hrun
        obtain ⟨hfin2, htr⟩ := hrun
        refine ⟨0, 0, by omega, ?_, Or.inl rfl, ?_⟩
        · rw [← hfin2]; simp
        · rw [← htr]
          simp [countCycle_cons_node, countCycle_cons_cycle, countCycle_nil]
    | ok v =>
      have hq := query_node_ok_char (env.queryEnv k) s v hts hcy
      have hs1e : truthy ({ s with sql_query := v.1, query_results := v.2 } :
          WorkflowState).error = false := he
      cases hval : (validate (env.valBackend k)
          ({ s with sql_query := v.1, query_results := v.2 } : WorkflowState).user_input
          ({ s with sql_query := v.1, query_results := v.2 } : WorkflowState).sql_query
          ({ s with sql_query := v.1, query_results := v.2 } :
            WorkflowState).query_results).1 with
      | mk bvalid reason =>
        cases bvalid with
        | true =>
          have hv2 := validate_node_valid2 (env.valBackend k)
            ({ s with sql_query := v.1, query_results := v.2 }) reason hs1e hval
          have hchk2 : check_validation
              ({ s with
                 sql_query := v.1, query_results := v.2, validation_error := none } : WorkflowState) = "end" :=
            check_validation_neg _ (fun hc => by simpa [truthy] using hc.1)
          have hsy := synthesize_node_go env.synthBackend
            ({ s with
               sql_query := v.1, query_results := v.2, validation_error := none } : WorkflowState) he
          simp [stepLoop, hq, hv2, hchk2, hsy] at hrun
          obtain ⟨hfin2, htr⟩ := hrun
          refine ⟨0, 0, by omega, ?_, Or.inl rfl, ?_⟩
          · rw [← hfin2]; simp
          · rw [← htr]
            simp [countCycle_cons_node, countCycle_cons_cycle, countCycle_cons_val,
              countCycle_cons_synth, countCycle_nil]
        | false =>
          have hv2 := validate_node_invalid2 (env.valBackend k)
            ({ s with sql_query := v.1, query_results := v.2 }) reason hs1e hval
          by_cases hchk : (truthy (some reason) = true ∧ s.retry_count + 1 < 3)
          · have hchk2 : check_validation
                ({ s with
                   sql_query := v.1, query_results := v.2,
                   validation_error := some reason, retry_count := s.retry_count + 1 } : WorkflowState) = "retry" :=
              check_validation_pos _ hchk.1 hchk.2
            cases hrec : stepLoop env f (k + 1)
                ({ s with
                   sql_query := v.1, query_results := v.2,
                   validation_error := some reason, retry_count := s.retry_count + 1 } : WorkflowState) with
            | none =>
              simp [stepLoop, hq, hv2, hchk2, hrec] at hrun
            | some r =>
              simp [stepLoop, hq, hv2, hchk2, hrec] at hrun
              obtain ⟨hfin2, htr⟩ := hrun
              obtain ⟨m2, d2, hd2, hrc2, hlt2, hcnt2⟩ :=
                ih (k + 1)
                  ({ s with
                     sql_query := v.1, query_results := v.2,
                     validation_error := some reason, retry_count := s.retry_count + 1 } : WorkflowState)
                  r.1 r.2 hts he (by rw [hrec])
              refine ⟨m2 + 1, d2, hd2, ?_, Or.inr ?_, ?_⟩
              · rw [← hfin2]
                simp only at hrc2
                omega
              · rcases hlt2 with h0 | hlt3
                · subst h0
                  simpa using hchk.2
                · simp only at hlt3
                  omega
              · rw [← htr]
                simp [countCycle_cons_node, countCycle_cons_cycle, countCycle_cons_val,
                  countCycle_nil, countCycle_append, hcnt2]
          · have hchk2 : check_validation
                ({ s with
                   sql_query := v.1, query_results := v.2,
                   validation_error := some reason, retry_count := s.retry_count + 1 } : WorkflowState) = "end" :=
              check_validation_neg _ (fun hc => hchk ⟨hc.1, hc.2⟩)
            have hsy := synthesize_node_go env.synthBackend
              ({ s with
                 sql_query := v.1, query_results := v.2,
                 validation_error := some reason, retry_count := s.retry_count + 1 } : WorkflowState) he
            simp [stepLoop, hq, hv2, hchk2, hsy] at hrun
            obtain ⟨hfin2, htr⟩ := hrun
            refine ⟨0, 1, by omega, ?_, Or.inl rfl, ?_⟩
            · rw [← hfin2]
            · rw [← htr]
              simp [countCycle_cons_node, countCycle_cons_cycle, countCycle_cons_val,
                countCycle_cons_synth, countCycle_nil]

/-- retrieve_tables_node always records exactly its own node entry. -/
theorem retrieve_tables_node_events (env : Env) (s : WorkflowState) :
    (retrieve_tables_node env s).2 = [WEvent.node "retrieve_tables"] := by
  simp only [retrieve_tables_node]
  split
  · split
    · rfl
    · split <;> rfl
  · split <;> rfl

/-- retrieve_tables_node never touches the retry counter, the validation
feedback or the user input. -/
theorem retrieve_tables_node_frame (env : Env) (s : WorkflowState) :
    (retrieve_tables_node env s).1.retry_count = s.retry_count ∧
    (retrieve_tables_node env s).1.validation_error = s.validation_error ∧
    (retrieve_tables_node env s).1.user_input = s.user_input := by
  simp only [retrieve_tables_node]
  split
  · split
    · exact ⟨rfl, rfl, rfl⟩
    · split <;> exact ⟨rfl, rfl, rfl⟩
  · split <;> exact ⟨rfl, rfl, rfl⟩

/-- Starting from an empty schema set, table resolution either fails
leaving the schema set empty, or succeeds leaving the error field as it
found it. -/
theorem retrieve_tables_node_schemas_error (env : Env) (s : WorkflowState)
    (h0 : s.table_schemas = []) :
    (retrieve_tables_node env s).1.table_schemas = [] ∨
    (retrieve_tables_node env s).1.error = s.error := by
  simp only [retrieve_tables_node]
  split
  · split
    · exact Or.inl h0
    · split
      · exact Or.inl h0
      · exact Or.inr rfl
  · split
    · exact Or.inr rfl
    · exact Or.inl h0

/-- With an empty schema set and falsy validation feedback, the loop ends
after one pass: query_node sets the error, validate passes through,
check_validation answers end, synthesize passes through. -/
theorem stepLoop_empty_schemas (env : Env) (f k : Nat) (s : WorkflowState)
    (hts : s.table_schemas.isEmpty = true) (hve : truthy s.validation_error = false) :
    stepLoop env (f + 1) k s =
      some ({ s with error := some "No tables available for querying" },
        [WEvent.node "query", WEvent.node "validate", WEvent.node "synthesize"]) := by
  have hq := query_node_empty_char (env.queryEnv k) s hts
  have hqe : truthy ({ s with error := some "No tables available for querying" } :
      WorkflowState).error = true := by
    show truthy (some "No tables available for querying") = true
    decide
  have hv2 := validate_node_pass (env.valBackend k) _ hqe
  have hchk2 : check_validation ({ s with error := some "No tables available for querying" } :
      WorkflowState) = "end" :=
    check_validation_neg _ (fun hc => by
      have hc1 := hc.1
      simp only at hc1
      rw [hve] at hc1
      exact Bool.false_ne_true hc1)
  have hsy := synthesize_node_pass env.synthBackend _ hqe
  simp [stepLoop, hq, hv2, hchk2, hsy]

/-- Unfolding the query path of one run: route to table retrieval and then
the loop, prefixing the retrieval node entry. -/
theorem runWorkflow_query (env : Env) (fuel : Nat) (s0 fin : WorkflowState)
    (tr : List WEvent) (hint : route_intent s0 = "query")
    (hrun : runWorkflow env fuel s0 = some (fin, tr)) :
    ∃ r2, stepLoop env fuel 0 (retrieve_tables_node env s0).1 = some r2 ∧
      fin = r2.1 ∧ tr = WEvent.node "retrieve_tables" :: r2.2 := by
  have hroute : (route_intent s0 == "summarize") = false := by rw [hint]; decide
  simp only [runWorkflow, hroute, Bool.false_eq_true, if_false] at hrun
  cases hstep : stepLoop env fuel 0 (retrieve_tables_node env s0).1 with
  | none => rw [hstep] at hrun; exact absurd hrun (by simp)
  | some r2 =>
    rw [hstep] at hrun
    simp only [retrieve_tables_node_events, Option.some.injEq, Prod.mk.injEq] at hrun
    exact ⟨r2, rfl, hrun.1.symm, by rw [← hrun.2]; rfl⟩

/-! Concrete instances used by counterexamples and witnesses. -/

/-- A small concrete table description. -/
def metaA : CSVMetadata :=
  { file_name := "a.csv", file_path := "p", table_name := "a", num_rows := 2,
    num_columns := 1, columns := ["x"], column_types := [("x", "INT")],
    description := "d", sample_values := [] }

/-- A backend/engine pair that always generates `SELECT 1` and executes it
successfully. -/
def qeOK : QueryEnv :=
  { gen := fun _ _ => .ok "SELECT 1", exec := fun _ _ => .ok [[("x", "1")]] }

/-- The initial state the host application passes for a catalog-mode query
(src/streamlit_app.py lines 263-275): empty strings and lists everywhere,
`error` present but empty, `validation_error` and `retry_count` absent. -/
def cexState : WorkflowState :=
  { user_input := "q", intent := "query", file_path := "", session_id := "sid",
    use_kb := true, relevant_tables := [], table_schemas := [], sql_query := "",
    query_results := [], final_answer := "", error := some "",
    validation_error := none, retry_count := 0 }

/-- Environment in which the validator rejects every answer: search finds
one table, the selection backend picks it, SQL always succeeds, validation
always answers INVALID. -/
def envRetryExhaust : Env :=
  { queryEnv := fun _ => qeOK,
    valBackend := fun _ _ => .ok "INVALID - wrong aggregation",
    synthBackend := fun _ => .ok "answer",
    search := .ok [metaA],
    selGen := fun _ => .ok "a",
    extract := fun _ _ => .error "unused",
    summarize := fun _ => .error "unused" }

/-- The terminated state and trace of the retry-exhaustion run. -/
def c1WitRun : WorkflowState × List WEvent :=
  (runWorkflow envRetryExhaust 10 cexState).getD (cexState, [])

/-- C1 counterexample: in the run where validation fails three times the
request terminates with `validation_retry_count = 3` after exactly 3 Query
Cycle invocations, not the claimed `1 + 3 = 4`. -/
theorem c1_counterexample :
    runWorkflow envRetryExhaust 10 cexState = some c1WitRun ∧
    c1WitRun.1.retry_count = 3 ∧ countCycle c1WitRun.2 = 3 ∧ ¬(3 = 1 + 3) :=
  ⟨rfl, rfl, rfl, by decide⟩

/-- C1 (amended): for every terminating Query/Validate-path request started
from the host-supplied clean initial state, against collaborators whose
error texts are nonempty, the final `validation_retry_count` never exceeds
3; and when table resolution produced a nonempty schema set, the Query
Cycle is invoked exactly `1 + validation_retry_count` times when the final
validation did not increment the counter, and exactly
`validation_retry_count` times when it did (so 3, not 4, on budget
exhaustion). -/
theorem c1_amended (env : Env) (fuel : Nat) (s0 fin : WorkflowState) (tr : List WEvent)
    (henv : QueryErrorsNonempty env)
    (hint : route_intent s0 = "query")
    (hts0 : s0.table_schemas = [])
    (herr0 : truthy s0.error = false)
    (hve0 : truthy s0.validation_error = false)
    (hrc0 : s0.retry_count = 0)
    (hrun : runWorkflow env fuel s0 = some (fin, tr)) :
    fin.retry_count ≤ 3 ∧
    ((retrieve_tables_node env s0).1.table_schemas.isEmpty = false →
      (countCycle tr = fin.retry_count + 1 ∨
       (countCycle tr = fin.retry_count ∧ 1 ≤ fin.retry_count))) := by
  obtain ⟨r2, hstep, hfin, htr⟩ := runWorkflow_query env fuel s0 fin tr hint hrun
  obtain ⟨hfr, hfv, _⟩ := retrieve_tables_node_frame env s0
  cases hemp : (retrieve_tables_node env s0).1.table_schemas.isEmpty with
  | true =>
    cases fuel with
    | zero => rw [show stepLoop env 0 0 (retrieve_tables_node env s0).1 = none from rfl] at hstep; exact absurd hstep (by simp)
    | succ f =>
      rw [stepLoop_empty_schemas env f 0 _ hemp (by rw [hfv]; exact hve0)] at hstep
      have hr2 : r2 = ({ (retrieve_tables_node env s0).1 with
          error := some "No tables available for querying" },
        [WEvent.node "query", WEvent.node "validate", WEvent.node "synthesize"]) := by
        exact (Option.some.injEq _ _).mp hstep.symm
      constructor
      · rw [hfin, hr2]
        show (retrieve_tables_node env s0).1.retry_count ≤ 3
        rw [hfr, hrc0]
        omega
      · intro hne
        exact absurd hne (by decide)
  | false =>
    have herr1 : truthy (retrieve_tables_node env s0).1.error = false := by
      rcases retrieve_tables_node_schemas_error env s0 hts0 with hcase | hcase
      · rw [hcase] at hemp
        exact absurd hemp (by simp [List.isEmpty])
      · rw [hcase]; exact herr0
    obtain ⟨m, d, hd, hrc, hlt, hcnt⟩ :=
      stepLoop_count env henv fuel 0 (retrieve_tables_node env s0).1 r2.1 r2.2
        hemp herr1 (by rw [hstep])
    rw [hfr, hrc0] at hrc
    constructor
    · rw [hfin]; omega
    · intro _
      have hctr : countCycle tr = m + 1 := by
        rw [htr, countCycle_cons_node, hcnt]
      rw [hfin]
      have hd01 : d = 0 ∨ d = 1 := by omega
      rcases hd01 with rfl | rfl
      · left; omega
      · right; constructor <;> omega

/-- C1 witness: the amended statement instantiated on the concrete
retry-exhaustion run. -/
theorem c1_amended_witness :
    runWorkflow envRetryExhaust 10 cexState = some c1WitRun ∧
    (c1WitRun.1.retry_count ≤ 3 ∧
      ((retrieve_tables_node envRetryExhaust cexState).1.table_schemas.isEmpty = false →
        (countCycle c1WitRun.2 = c1WitRun.1.retry_count + 1 ∨
         (countCycle c1WitRun.2 = c1WitRun.1.retry_count ∧ 1 ≤ c1WitRun.1.retry_count)))) :=
  ⟨rfl, c1_amended envRetryExhaust 10 cexState c1WitRun.1 c1WitRun.2
    (fun _ => ⟨fun _ _ _ h => Except.noConfusion h, fun _ _ _ h => Except.noConfusion h⟩)
    rfl rfl rfl rfl rfl rfl⟩

/-- Characterization of catalog-mode resolution when candidates exist and
the selection backend answers: the schema set is built from the filtered
selection, falling back to the first 3 candidates when the filter comes
back empty (the code tests `not final_selection and candidates`). -/
theorem retrieve_ok_char (env : Env) (s : WorkflowState) (cands : List CSVMetadata)
    (text : String) (huse : s.use_kb = true)
    (hsearch : search_relevant_tables env.search = cands)
    (hcne : cands.isEmpty = false)
    (hsel : env.selGen (selectionPrompt s.user_input cands) = .ok text) :
    retrieve_tables_node env s =
      ({ s with
         table_schemas := dictOfMetas (if ((cands.filter (fun c =>
             (parseSelectedNames text).contains c.table_name)).isEmpty &&
             !cands.isEmpty) then cands.take 3
           else cands.filter (fun c => (parseSelectedNames text).contains c.table_name)),
         relevant_tables := (dictOfMetas (if ((cands.filter (fun c =>
             (parseSelectedNames text).contains c.table_name)).isEmpty &&
             !cands.isEmpty) then cands.take 3
           else cands.filter (fun c => (parseSelectedNames text).contains c.table_name))).map
             (fun kv => kv.1) },
       [WEvent.node "retrieve_tables"]) := by
  simp only [retrieve_tables_node, huse, hsearch, hsel, hcne, eq_self_iff_true, if_true,
    Bool.false_eq_true, if_false]

/-- A list that is not nil is not empty. -/
theorem isEmpty_false_of_ne_nil {α : Type} (l : List α) (h : l ≠ []) :
    l.isEmpty = false := by
  cases l with
  | nil => exact absurd rfl h
  | cons a t => rfl

/-! C2 -/

/-- Environment whose Schema Store search finds no candidates. -/
def envNoCandidates : Env := { envRetryExhaust with search := .ok [] }

/-- Terminated state and trace of the failed-resolution run. -/
def c2WitRun : WorkflowState × List WEvent :=
  (runWorkflow envNoCandidates 5 cexState).getD (cexState, [])

/-- C2 counterexample: table resolution fails and sets the resolver error
text, but the run terminates with the different error text written by
query_node — a node did mutate the state after the error was set. -/
theorem c2_counterexample :
    (retrieve_tables_node envNoCandidates cexState).1.error =
      some "No relevant tables found in knowledge base" ∧
    runWorkflow envNoCandidates 5 cexState = some c2WitRun ∧
    c2WitRun.1.error = some "No tables available for querying" ∧
    ("No tables available for querying" : String) ≠
      "No relevant tables found in knowledge base" :=
  ⟨rfl, rfl, rfl, by decide⟩

/-- C2 (amended): once the error field is truthy, validate_node and
synthesize_node return the state unchanged; but query_node does not guard
on the error field — with an empty schema set it overwrites the error with
its own text, so a request whose table resolution failed terminates with
`No tables available for querying` instead of the error text the resolver wrote. -/
theorem c2_amended :
    (∀ (b : String → Except String String) (s : WorkflowState), truthy s.error = true →
      validate_node b s = (s, [WEvent.node "validate"])) ∧
    (∀ (b : String → Except String String) (s : WorkflowState), truthy s.error = true →
      synthesize_node b s = (s, [WEvent.node "synthesize"])) ∧
    (∀ (qe : QueryEnv) (s : WorkflowState), s.table_schemas = [] →
      query_node qe s = ({ s with error := some "No tables available for querying" },
        [WEvent.node "query"])) ∧
    (∀ (env : Env) (fuel : Nat) (s0 : WorkflowState),
      route_intent s0 = "query" → s0.use_kb = true → s0.table_schemas = [] →
      truthy s0.validation_error = false →
      search_relevant_tables env.search = [] →
      runWorkflow env (fuel + 1) s0 =
        some ({ s0 with error := some "No tables available for querying" },
          [WEvent.node "retrieve_tables", WEvent.node "query", WEvent.node "validate",
           WEvent.node "synthesize"])) := by
  refine ⟨validate_node_pass, synthesize_node_pass, ?_, ?_⟩
  · intro qe s h
    exact query_node_empty_char qe s (by rw [h]; rfl)
  · intro env fuel s0 hroute huse hts hve hsearch
    have hret : retrieve_tables_node env s0 =
        ({ s0 with error := some "No relevant tables found in knowledge base" },
         [WEvent.node "retrieve_tables"]) := by
      simp [retrieve_tables_node, huse, hsearch]
    have hemp : ({ s0 with error := some "No relevant tables found in knowledge base" } :
        WorkflowState).table_schemas.isEmpty = true := by
      show s0.table_schemas.isEmpty = true
      rw [hts]
      rfl
    have hstep := stepLoop_empty_schemas env fuel 0
      ({ s0 with error := some "No relevant tables found in knowledge base" }) hemp
      (show truthy s0.validation_error = false from hve)
    have hroute2 : (route_intent s0 == "summarize") = false := by rw [hroute]; decide
    simp [runWorkflow, hroute2, hret, hstep]

/-- C2 witness: the amended statement exercised on the zero-candidate run. -/
theorem c2_amended_witness :
    validate_node (fun _ => .ok "VALID") { cexState with error := some "boom" } =
      ({ cexState with error := some "boom" }, [WEvent.node "validate"]) ∧
    synthesize_node (fun _ => .ok "x") { cexState with error := some "boom" } =
      ({ cexState with error := some "boom" }, [WEvent.node "synthesize"]) ∧
    query_node qeOK cexState =
      ({ cexState with error := some "No tables available for querying" },
       [WEvent.node "query"]) ∧
    runWorkflow envNoCandidates 5 cexState =
      some ({ cexState with error := some "No tables available for querying" },
        [WEvent.node "retrieve_tables", WEvent.node "query", WEvent.node "validate",
         WEvent.node "synthesize"]) :=
  ⟨c2_amended.1 _ _ (by decide), c2_amended.2.1 _ _ (by decide),
   c2_amended.2.2.1 qeOK cexState rfl,
   c2_amended.2.2.2 envNoCandidates 4 cexState rfl rfl rfl rfl rfl⟩

/-! C6 -/

/-- Environment whose selection backend answers a name matching no
candidate. -/
def envNoMatchSel : Env := { envRetryExhaust with selGen := fun _ => .ok "zzz" }

/-- C6 counterexample: the LLM selection parses to the nonempty list
`["zzz"]`, which matches no candidate; the fallback to the first 3
candidates is still taken — refuting the literal empty-parsed-list rule. -/
theorem c6_counterexample :
    parseSelectedNames "zzz" = ["zzz"] ∧
    (["zzz"] : List String) ≠ [] ∧
    (List.filter (fun c => (parseSelectedNames "zzz").contains c.table_name)
      [metaA]).isEmpty = true ∧
    (retrieve_tables_node envNoMatchSel cexState).1.table_schemas = [("a", metaA)] ∧
    dictOfMetas (List.take 3 [metaA]) = [("a", metaA)] :=
  ⟨rfl, by decide, rfl, rfl, rfl⟩

/-- C6 (amended): with zero candidates resolution sets the terminal
not-found error; with candidates, the fallback to the first 3 candidates
is taken exactly when the filtered selection — candidates whose names
appear verbatim in the parsed list — is empty, which covers both an empty
parsed list and a parsed list matching no candidate. -/
theorem c6_amended :
    (∀ (env : Env) (s : WorkflowState), s.use_kb = true →
      search_relevant_tables env.search = [] →
      retrieve_tables_node env s =
        ({ s with error := some "No relevant tables found in knowledge base" },
         [WEvent.node "retrieve_tables"])) ∧
    (∀ (env : Env) (s : WorkflowState) (cands : List CSVMetadata) (text : String),
      s.use_kb = true → search_relevant_tables env.search = cands → cands ≠ [] →
      env.selGen (selectionPrompt s.user_input cands) = .ok text →
      (retrieve_tables_node env s).1.table_schemas =
        dictOfMetas (if (cands.filter (fun c =>
            (parseSelectedNames text).contains c.table_name)).isEmpty
          then cands.take 3
          else cands.filter (fun c => (parseSelectedNames text).contains c.table_name))) := by
  constructor
  · intro env s huse hsearch
    simp [retrieve_tables_node, huse, hsearch]
  · intro env s cands text huse hsearch hne hsel
    have hcne : cands.isEmpty = false := isEmpty_false_of_ne_nil cands hne
    rw [retrieve_ok_char env s cands text huse hsearch hcne hsel]
    show dictOfMetas _ = _
    rw [hcne]
    simp only [Bool.not_false, Bool.and_true]

/-- C6 witness: both branches of the amended statement on concrete data. -/
theorem c6_amended_witness :
    retrieve_tables_node envNoCandidates cexState =
      ({ cexState with error := some "No relevant tables found in knowledge base" },
       [WEvent.node "retrieve_tables"]) ∧
    (retrieve_tables_node envNoMatchSel cexState).1.table_schemas =
      dictOfMetas (if (List.filter (fun c =>
          (parseSelectedNames "zzz").contains c.table_name) [metaA]).isEmpty
        then List.take 3 [metaA]
        else List.filter (fun c => (parseSelectedNames "zzz").contains c.table_name) [metaA]) :=
  ⟨c6_amended.1 envNoCandidates cexState rfl rfl,
   c6_amended.2 envNoMatchSel cexState [metaA] "zzz" rfl rfl (by decide) rfl⟩

/-! C10 -/

/-- C10: CatalogService.search_relevant_tables maps any internal failure to
the empty candidate list, so in catalog mode a Schema Store failure is
indistinguishable from a genuinely empty search: the node behaves
identically and both terminate resolution with the same
`No relevant tables found in knowledge base` error. -/
theorem c10_store_failure_indistinguishable :
    (∀ e, search_relevant_tables (Except.error e) = []) ∧
    search_relevant_tables (Except.ok []) = ([] : List CSVMetadata) ∧
    (∀ (env : Env) (e : String) (s : WorkflowState), s.use_kb = true →
      env.search = .error e →
      retrieve_tables_node env s = retrieve_tables_node { env with search := .ok [] } s ∧
      (retrieve_tables_node env s).1.error =
        some "No relevant tables found in knowledge base") := by
  refine ⟨fun e => rfl, rfl, ?_⟩
  intro env e s huse hs
  have h1 : search_relevant_tables env.search = [] := by rw [hs]; rfl
  have h2 : search_relevant_tables (Except.ok ([] : List CSVMetadata)) = [] := rfl
  constructor
  · simp [retrieve_tables_node, huse, h1, h2]
  · simp [retrieve_tables_node, huse, h1]

/-- Environment whose Schema Store raises internally. -/
def envStoreDown : Env := { envRetryExhaust with search := .error "chroma down" }

/-- C10 witness: a concrete store failure behaves exactly like an empty
search. -/
theorem c10_witness :
    search_relevant_tables (Except.error "chroma down") = [] ∧
    search_relevant_tables (Except.ok []) = ([] : List CSVMetadata) ∧
    (retrieve_tables_node envStoreDown cexState =
      retrieve_tables_node { envStoreDown with search := .ok [] } cexState ∧
     (retrieve_tables_node envStoreDown cexState).1.error =
        some "No relevant tables found in knowledge base") :=
  ⟨c10_store_failure_indistinguishable.1 "chroma down",
   c10_store_failure_indistinguishable.2.1,
   c10_store_failure_indistinguishable.2.2 envStoreDown "chroma down" cexState rfl rfl⟩

/-! C7 -/

/-- C7: ValidationAgent.validate is total for its caller (it is a plain
function of the backend outcome): any backend failure yields exactly
`valid = true, reason = "Validation Error"`, and the single prompt ever
sent to the backend renders the results truncated to their first 5 rows. -/
theorem c7_validator_fail_open :
    (∀ (b : String → Except String String) (q sql : String) (results : List Row)
       (e : String),
      b (VALIDATION_PROMPT q sql (pyStrRows (results.take 5))) = .error e →
      validate b q sql results =
        ({ valid := true, reason := "Validation Error" },
         [VALIDATION_PROMPT q sql (pyStrRows (results.take 5))])) ∧
    (∀ (b : String → Except String String) (q sql : String) (results : List Row),
      (validate b q sql results).2 =
        [VALIDATION_PROMPT q sql (pyStrRows (results.take 5))]) := by
  constructor
  · intro b q sql results e h
    simp [validate, h]
  · intro b q sql results
    cases hb : b (VALIDATION_PROMPT q sql (pyStrRows (results.take 5))) with
    | error e => simp [validate, hb]
    | ok t => simp [validate, hb]

/-- C7 witness: a concrete backend failure and a concrete success, both
showing the 5-row truncation, and the fail-open fixed result. -/
theorem c7_witness :
    validate (fun _ => .error "quota") "q" "SELECT 1" [] =
      ({ valid := true, reason := "Validation Error" },
       [VALIDATION_PROMPT "q" "SELECT 1" (pyStrRows ([].take 5))]) ∧
    (validate (fun _ => .ok "VALID") "q" "SELECT 1"
        [[("x", "1")], [("x", "2")], [("x", "3")], [("x", "4")], [("x", "5")],
         [("x", "6")], [("x", "7")]]).2 =
      [VALIDATION_PROMPT "q" "SELECT 1"
        (pyStrRows ([[("x", "1")], [("x", "2")], [("x", "3")], [("x", "4")], [("x", "5")],
          [("x", "6")], [("x", "7")]].take 5))] :=
  ⟨c7_validator_fail_open.1 (fun _ => .error "quota") "q" "SELECT 1" [] "quota" rfl,
   c7_validator_fail_open.2 (fun _ => .ok "VALID") "q" "SELECT 1" _⟩

/-! C8 -/

/-- C8: synthesize_answer returns the fixed no-results message without any
backend call on empty results; otherwise it sends exactly one prompt
rendering at most the first 10 rows; on backend failure it returns the
deterministic rendering of the first 5 rows instead of raising (it is a
plain function of the backend outcome), and on success the trimmed
response. -/
theorem c8_synthesizer_fallback :
    (∀ (b : String → Except String String) (q sql : String),
      synthesize_answer b q sql [] = ("No results found for your query.", [])) ∧
    (∀ (b : String → Except String String) (q sql : String) (results : List Row),
      results ≠ [] →
      (synthesize_answer b q sql results).2 =
        [SYNTHESIS_PROMPT q sql (pyStrRows (results.take 10))]) ∧
    (∀ (b : String → Except String String) (q sql : String) (results : List Row)
       (e : String),
      results ≠ [] →
      b (SYNTHESIS_PROMPT q sql (pyStrRows (results.take 10))) = .error e →
      (synthesize_answer b q sql results).1 =
        "Query executed successfully. Results: " ++ pyStrRows (results.take 5)) ∧
    (∀ (b : String → Except String String) (q sql : String) (results : List Row)
       (t : String),
      results ≠ [] →
      b (SYNTHESIS_PROMPT q sql (pyStrRows (results.take 10))) = .ok t →
      (synthesize_answer b q sql results).1 = pyStrip t) := by
  refine ⟨fun b q sql => rfl, ?_, ?_, ?_⟩
  · intro b q sql results hne
    have he := isEmpty_false_of_ne_nil results hne
    cases hb : b (SYNTHESIS_PROMPT q sql (pyStrRows (results.take 10))) with
    | error e => simp [synthesize_answer, he, hb]
    | ok t => simp [synthesize_answer, he, hb]
  · intro b q sql results e hne hb
    have he := isEmpty_false_of_ne_nil results hne
    simp [synthesize_answer, he, hb]
  · intro b q sql results t hne hb
    have he := isEmpty_false_of_ne_nil results hne
    simp [synthesize_answer, he, hb]

/-- C8 witness: all four behaviors on concrete data. -/
theorem c8_witness :
    synthesize_answer (fun _ => .error "down") "q" "SELECT 1" [] =
      ("No results found for your query.", []) ∧
    (synthesize_answer (fun _ => .ok "ans") "q" "SELECT 1" [[("x", "1")]]).2 =
      [SYNTHESIS_PROMPT "q" "SELECT 1" (pyStrRows ([[("x", "1")]].take 10))] ∧
    (synthesize_answer (fun _ => .error "down") "q" "SELECT 1" [[("x", "1")]]).1 =
      "Query executed successfully. Results: " ++ pyStrRows ([[("x", "1")]].take 5) ∧
    (synthesize_answer (fun _ => .ok " ans ") "q" "SELECT 1" [[("x", "1")]]).1 =
      pyStrip " ans " :=
  ⟨c8_synthesizer_fallback.1 (fun _ => .error "down") "q" "SELECT 1",
   c8_synthesizer_fallback.2.1 (fun _ => .ok "ans") "q" "SELECT 1" [[("x", "1")]]
     (by decide),
   c8_synthesizer_fallback.2.2.1 (fun _ => .error "down") "q" "SELECT 1" [[("x", "1")]]
     "down" (by decide) rfl,
   c8_synthesizer_fallback.2.2.2 (fun _ => .ok " ans ") "q" "SELECT 1" [[("x", "1")]]
     " ans " (by decide) rfl⟩

/-! C9 -/

/-- summarize_node always records exactly its own node entry. -/
theorem summarize_node_events (env : Env) (s : WorkflowState) :
    (summarize_node env s).2 = [WEvent.node "summarize"] := by
  unfold summarize_node
  split <;> rfl

/-- C9: a request whose intent is Summarize runs the summarization node and
terminates; the table resolver, query cycle and validator nodes never
appear, and neither the query agent nor the validation agent is invoked. -/
theorem c9_summarize_short_circuit (env : Env) (fuel : Nat) (s0 fin : WorkflowState)
    (tr : List WEvent) (hint : s0.intent = "summarize")
    (hrun : runWorkflow env fuel s0 = some (fin, tr)) :
    tr = [WEvent.node "summarize"] ∧
    countNode "retrieve_tables" tr = 0 ∧ countNode "query" tr = 0 ∧
    countNode "validate" tr = 0 ∧ countCycle tr = 0 ∧ countValidator tr = 0 ∧
    fin = (summarize_node env s0).1 := by
  have hroute : (route_intent s0 == "summarize") = true := by
    simp [route_intent, hint]
  simp only [runWorkflow, hroute, if_true] at hrun
  simp only [summarize_node_events, Option.some.injEq, Prod.mk.injEq] at hrun
  obtain ⟨hfin, htr⟩ := hrun
  subst hfin
  rw [← htr]
  exact ⟨rfl, rfl, rfl, rfl, rfl, rfl, rfl⟩

/-- Environment with a working summarizer. -/
def envSummarize : Env := { envRetryExhaust with summarize := fun _ => .ok "summary" }

/-- The initial state for a Summarize request (src/streamlit_app.py 94-106). -/
def sumState : WorkflowState := { cexState with intent := "summarize" }

/-- C9 witness: the concrete summarize run visits only the summarize node. -/
theorem c9_witness :
    runWorkflow envSummarize 5 sumState =
      some ((summarize_node envSummarize sumState).1, [WEvent.node "summarize"]) ∧
    ([WEvent.node "summarize"] = [WEvent.node "summarize"] ∧
     countNode "retrieve_tables" [WEvent.node "summarize"] = 0 ∧
     countNode "query" [WEvent.node "summarize"] = 0 ∧
     countNode "validate" [WEvent.node "summarize"] = 0 ∧
     countCycle [WEvent.node "summarize"] = 0 ∧
     countValidator [WEvent.node "summarize"] = 0 ∧
     (summarize_node envSummarize sumState).1 = (summarize_node envSummarize sumState).1) :=
  ⟨rfl, c9_summarize_short_circuit envSummarize 5 sumState
    (summarize_node envSummarize sumState).1 [WEvent.node "summarize"] rfl rfl⟩

/-! Attempt-level helper lemmas for the Query Cycle claims. -/

theorem attemptOnce_of_gen_exec_err (env : QueryEnv) (a : Nat) (q : String)
    (sch : List (String × CSVMetadata)) (c : Option String) (sql e : String)
    (hg : generateSql env a q sch c = .ok sql) (hx : env.exec a sql = .error e) :
    (attemptOnce env a q sch c).1 = .error e := by
  simp [attemptOnce, hg, hx]

theorem attemptOnce_events_cons (env : QueryEnv) (a : Nat) (q : String)
    (sch : List (String × CSVMetadata)) (c : Option String) :
    ∃ t, (attemptOnce env a q sch c).2 =
      QEvent.genCall a (buildQueryPrompt q sch c) :: t := by
  cases hg : generateSql env a q sch c with
  | error e => exact ⟨[], by simp [attemptOnce, hg]⟩
  | ok sql =>
    cases hx : env.exec a sql with
    | error e => exact ⟨[QEvent.execCall a sql], by simp [attemptOnce, hg, hx]⟩
    | ok rows => exact ⟨[QEvent.execCall a sql], by simp [attemptOnce, hg, hx]⟩

theorem attemptOnce_ok_events (env : QueryEnv) (a : Nat) (q : String)
    (sch : List (String × CSVMetadata)) (c : Option String) (v : String × List Row)
    (h : (attemptOnce env a q sch c).1 = .ok v) :
    (attemptOnce env a q sch c).2 =
      [QEvent.genCall a (buildQueryPrompt q sch c), QEvent.execCall a v.1] := by
  cases hg : generateSql env a q sch c with
  | error e => simp [attemptOnce, hg] at h
  | ok sql =>
    cases hx : env.exec a sql with
    | error e => simp [attemptOnce, hg, hx] at h
    | ok rows =>
      have hv : (sql, rows) = v := by simpa [attemptOnce, hg, hx] using h
      simp [attemptOnce, hg, hx, ← hv]

/-! C3 -/

/-- C3 (amended): when the resolver succeeded and all
three attempts of the first Query Cycle all end in execution failure with nonempty error texts, the
run terminates in Failed with the attempt-3 error text, no answer is
synthesized, and the Validator is never invoked.  (With an empty attempt-3
text the error field is falsy and the validator does run — see the
counterexample.) -/
theorem c3_amended (env : Env) (fuel : Nat) (s0 : WorkflowState)
    (sql0 sql1 sql2 e1 e2 e3 : String)
    (hint : route_intent s0 = "query")
    (hve0 : s0.validation_error = none)
    (hemp : (retrieve_tables_node env s0).1.table_schemas.isEmpty = false)
    (hg0 : generateSql (env.queryEnv 0) 0 s0.user_input
      (retrieve_tables_node env s0).1.table_schemas none = .ok sql0)
    (hx0 : (env.queryEnv 0).exec 0 sql0 = .error e1) (he1 : e1 ≠ "")
    (hg1 : generateSql (env.queryEnv 0) 1 s0.user_input
      (retrieve_tables_node env s0).1.table_schemas (some e1) = .ok sql1)
    (hx1 : (env.queryEnv 0).exec 1 sql1 = .error e2) (he2 : e2 ≠ "")
    (hg2 : generateSql (env.queryEnv 0) 2 s0.user_input
      (retrieve_tables_node env s0).1.table_schemas (some e2) = .ok sql2)
    (hx2 : (env.queryEnv 0).exec 2 sql2 = .error e3) (he3 : e3 ≠ "") :
    runWorkflow env (fuel + 1) s0 =
      some ({ (retrieve_tables_node env s0).1 with error := some e3 },
        [WEvent.node "retrieve_tables", WEvent.node "query", WEvent.cycleCall,
         WEvent.node "validate", WEvent.node "synthesize"]) ∧
    countValidator
      [WEvent.node "retrieve_tables", WEvent.node "query", WEvent.cycleCall,
       WEvent.node "validate", WEvent.node "synthesize"] = 0 := by
  obtain ⟨hfr, hfv, hfu⟩ := retrieve_tables_node_frame env s0
  have hve1 : (retrieve_tables_node env s0).1.validation_error = none := by
    rw [hfv, hve0]
  have hcy : (generate_and_execute_query (env.queryEnv 0)
      (retrieve_tables_node env s0).1.user_input
      (retrieve_tables_node env s0).1.table_schemas
      (retrieve_tables_node env s0).1.validation_error).1 = .error e3 := by
    rw [hve1, hfu]
    have h0 := attemptOnce_of_gen_exec_err (env.queryEnv 0) 0 s0.user_input
      (retrieve_tables_node env s0).1.table_schemas none sql0 e1 hg0 hx0
    have h1 : (attemptOnce (env.queryEnv 0) 1 s0.user_input
        (retrieve_tables_node env s0).1.table_schemas
        (if truthy (some e1) then some e1 else none)).1 = .error e2 := by
      rw [if_pos (truthy_some_ne e1 he1)]
      exact attemptOnce_of_gen_exec_err (env.queryEnv 0) 1 s0.user_input
        (retrieve_tables_node env s0).1.table_schemas (some e1) sql1 e2 hg1 hx1
    have h2 : (attemptOnce (env.queryEnv 0) 2 s0.user_input
        (retrieve_tables_node env s0).1.table_schemas
        (if truthy (some e2) then some e2 else none)).1 = .error e3 := by
      rw [if_pos (truthy_some_ne e2 he2)]
      exact attemptOnce_of_gen_exec_err (env.queryEnv 0) 2 s0.user_input
        (retrieve_tables_node env s0).1.table_schemas (some e2) sql2 e3 hg2 hx2
    rw [cycle_err (env.queryEnv 0) s0.user_input
      (retrieve_tables_node env s0).1.table_schemas none e1 e2 e3 h0 h1 h2]
  have hq := query_node_err_char (env.queryEnv 0) (retrieve_tables_node env s0).1 e3
    hemp hcy
  have hqe : truthy ({ (retrieve_tables_node env s0).1 with error := some e3 } :
      WorkflowState).error = true := truthy_some_ne e3 he3
  have hv2 := validate_node_pass (env.valBackend 0) _ hqe
  have hvetr : truthy ({ (retrieve_tables_node env s0).1 with error := some e3 } :
      WorkflowState).validation_error = false := by
    show truthy (retrieve_tables_node env s0).1.validation_error = false
    rw [hve1]
    rfl
  have hchk2 : check_validation ({ (retrieve_tables_node env s0).1 with
      error := some e3 } : WorkflowState) = "end" :=
    check_validation_neg _ (fun hc => absurd hc.1 (by simp [hvetr]))
  have hsy := synthesize_node_pass env.synthBackend _ hqe
  have hstep : stepLoop env (fuel + 1) 0 (retrieve_tables_node env s0).1 =
      some ({ (retrieve_tables_node env s0).1 with error := some e3 },
        [WEvent.node "query", WEvent.cycleCall, WEvent.node "validate",
         WEvent.node "synthesize"]) := by
    simp [stepLoop, hq, hv2, hchk2, hsy]
  have hroute2 : (route_intent s0 == "summarize") = false := by rw [hint]; decide
  constructor
  · simp [runWorkflow, hroute2, hstep, retrieve_tables_node_events]
  · decide

/-- Engine that fails all three attempts with nonempty error texts. -/
def qeThreeFails : QueryEnv :=
  { gen := fun _ _ => .ok "SELECT 1",
    exec := fun a _ => if a == 0 then .error "e1"
      else if a == 1 then .error "e2" else .error "e3" }

/-- Environment for the all-attempts-fail run. -/
def envThreeFails : Env := { envRetryExhaust with queryEnv := fun _ => qeThreeFails }

/-- C3 witness: the amended statement on the concrete all-fail run. -/
theorem c3_witness :
    runWorkflow envThreeFails 10 cexState =
      some ({ (retrieve_tables_node envThreeFails cexState).1 with error := some "e3" },
        [WEvent.node "retrieve_tables", WEvent.node "query", WEvent.cycleCall,
         WEvent.node "validate", WEvent.node "synthesize"]) ∧
    countValidator
      [WEvent.node "retrieve_tables", WEvent.node "query", WEvent.cycleCall,
       WEvent.node "validate", WEvent.node "synthesize"] = 0 :=
  c3_amended envThreeFails 9 cexState "SELECT 1" "SELECT 1" "SELECT 1" "e1" "e2" "e3"
    rfl rfl rfl rfl rfl (by decide) rfl rfl (by decide) rfl rfl (by decide)

/-- Engine whose three attempts fail with the third error text empty. -/
def qeThirdEmpty : QueryEnv :=
  { gen := fun _ _ => .ok "SELECT 1",
    exec := fun a _ => if a == 0 then .error "e1"
      else if a == 1 then .error "e2" else .error "" }

/-- Environment for the empty-third-error run, with a validator answering
VALID. -/
def envThirdEmpty : Env :=
  { envRetryExhaust with
    queryEnv := fun _ => qeThirdEmpty, valBackend := fun _ _ => .ok "VALID" }

/-- Terminated state and trace of the empty-third-error run. -/
def c3WitRun : WorkflowState × List WEvent :=
  (runWorkflow envThirdEmpty 10 cexState).getD (cexState, [])

/-- C3 counterexample: all three attempts fail in execution (three
execution calls) and the cycle raises the attempt-3 error, here the empty
string; the error field is then falsy, so the Validator IS invoked and an
answer is synthesized — the claimed `Validator is never invoked` and
`Failed with no answer` fail on this input. -/
theorem c3_counterexample :
    (generate_and_execute_query qeThirdEmpty cexState.user_input [("a", metaA)] none).1 =
      .error "" ∧
    countQExec (generate_and_execute_query qeThirdEmpty cexState.user_input
      [("a", metaA)] none).2 = 3 ∧
    runWorkflow envThirdEmpty 10 cexState = some c3WitRun ∧
    countValidator c3WitRun.2 = 1 ∧
    c3WitRun.1.final_answer = "No results found for your query." ∧
    (1 : Nat) ≠ 0 :=
  ⟨rfl, rfl, rfl, rfl, rfl, by decide⟩

/-! C4 -/

/-- C4 (amended): a generation-backend failure inside the Query Cycle is
caught exactly like an execution failure: the cycle proceeds to the next
attempt with the backend error text as the new error context, and a
failure is propagated as fatal only when it happens on the third attempt. -/
theorem c4_amended :
    (∀ (qe : QueryEnv) (q : String) (sch : List (String × CSVMetadata))
       (ec : Option String) (eb sql : String) (rows : List Row),
      qe.gen 0 (buildQueryPrompt q sch ec) = .error eb → eb ≠ "" →
      generateSql qe 1 q sch (some eb) = .ok sql →
      qe.exec 1 sql = .ok rows →
      generate_and_execute_query qe q sch ec =
        (.ok (sql, rows),
         [QEvent.genCall 0 (buildQueryPrompt q sch ec),
          QEvent.genCall 1 (buildQueryPrompt q sch (some eb)),
          QEvent.execCall 1 sql])) ∧
    (∀ (qe : QueryEnv) (q : String) (sch : List (String × CSVMetadata))
       (ec : Option String) (e1 e2 e3 : String),
      (attemptOnce qe 0 q sch ec).1 = .error e1 → e1 ≠ "" →
      (attemptOnce qe 1 q sch (some e1)).1 = .error e2 → e2 ≠ "" →
      (attemptOnce qe 2 q sch (some e2)).1 = .error e3 →
      (generate_and_execute_query qe q sch ec).1 = .error e3) := by
  constructor
  · intro qe q sch ec eb sql rows hgen hne hsql hexec
    have hgs : generateSql qe 0 q sch ec = .error eb := by
      simp [generateSql, hgen]
    have h0 : (attemptOnce qe 0 q sch ec).1 = .error eb := by
      simp [attemptOnce, hgs]
    have h1 : (attemptOnce qe 1 q sch (if truthy (some eb) then some eb else ec)).1 =
        .ok (sql, rows) := by
      rw [if_pos (truthy_some_ne eb hne)]
      simp [attemptOnce, hsql, hexec]
    rw [cycle_ok1 qe q sch ec eb (sql, rows) h0 h1]
    rw [if_pos (truthy_some_ne eb hne)]
    rw [attemptOnce_ok_events qe 1 q sch (some eb) (sql, rows) (by
      rw [if_pos (truthy_some_ne eb hne)] at h1
      exact h1)]
    have h0ev : (attemptOnce qe 0 q sch ec).2 =
        [QEvent.genCall 0 (buildQueryPrompt q sch ec)] := by
      simp [attemptOnce, hgs]
    rw [h0ev]
    rfl
  · intro qe q sch ec e1 e2 e3 h0 he1 h1 he2 h2
    have h1b : (attemptOnce qe 1 q sch (if truthy (some e1) then some e1 else ec)).1 =
        .error e2 := by
      rw [if_pos (truthy_some_ne e1 he1)]
      exact h1
    have h2b : (attemptOnce qe 2 q sch (if truthy (some e2) then some e2 else ec)).1 =
        .error e3 := by
      rw [if_pos (truthy_some_ne e2 he2)]
      exact h2
    rw [cycle_err qe q sch ec e1 e2 e3 h0 h1b h2b]

/-- Engine whose generation backend fails on the first attempt only. -/
def qeGenRetry : QueryEnv :=
  { gen := fun a _ => if a == 0 then .error "backend down" else .ok "SELECT 1",
    exec := fun _ _ => .ok [[("x", "1")]] }

/-- C4 counterexample: the generation backend fails on attempt 1 with
`backend down`, yet the cycle retries — a second generation call is made
and the cycle returns success instead of propagating the backend error as
fatal. -/
theorem c4_counterexample :
    qeGenRetry.gen 0 (buildQueryPrompt "q" [("a", metaA)] none) = .error "backend down" ∧
    (generate_and_execute_query qeGenRetry "q" [("a", metaA)] none).1 =
      .ok ("SELECT 1", [[("x", "1")]]) ∧
    countQGen (generate_and_execute_query qeGenRetry "q" [("a", metaA)] none).2 = 2 ∧
    (Except.ok ("SELECT 1", [[("x", "1")]]) : Except String (String × List Row)) ≠
      .error "backend down" :=
  ⟨rfl, rfl, rfl, fun h => Except.noConfusion h⟩

/-- Engine whose generation backend always fails. -/
def qeGenAlwaysFails : QueryEnv :=
  { gen := fun a _ => if a == 0 then .error "b1" else if a == 1 then .error "b2"
      else .error "b3",
    exec := fun _ _ => .ok [[("x", "1")]] }

/-- C4 witness: both amended behaviors on concrete engines. -/
theorem c4_witness :
    generate_and_execute_query qeGenRetry "q" [("a", metaA)] none =
      (.ok ("SELECT 1", [[("x", "1")]]),
       [QEvent.genCall 0 (buildQueryPrompt "q" [("a", metaA)] none),
        QEvent.genCall 1 (buildQueryPrompt "q" [("a", metaA)] (some "backend down")),
        QEvent.execCall 1 "SELECT 1"]) ∧
    (generate_and_execute_query qeGenAlwaysFails "q" [("a", metaA)] none).1 =
      .error "b3" :=
  ⟨c4_amended.1 qeGenRetry "q" [("a", metaA)] none "backend down" "SELECT 1"
    [[("x", "1")]] rfl (by decide) rfl rfl,
   c4_amended.2 qeGenAlwaysFails "q" [("a", metaA)] none "b1" "b2" "b3"
    rfl (by decide) rfl (by decide) rfl⟩

/-! C5 -/

/-- C5 (amended): the generation prompt of attempt 1 uses the external feedback
as its only error context; after an attempt fails with a nonempty error
text, the prompt of the next attempt carries exactly that text, superseding the
external feedback (an empty error text instead falls back to the external
feedback — see the counterexample); and a first-attempt execution success
returns immediately with exactly one generation call and one execution
call. -/
theorem c5_amended :
    (∀ (qe : QueryEnv) (q : String) (sch : List (String × CSVMetadata))
       (ec : Option String),
      ∃ t, (generate_and_execute_query qe q sch ec).2 =
        QEvent.genCall 0 (buildQueryPrompt q sch ec) :: t) ∧
    (∀ (qe : QueryEnv) (q : String) (sch : List (String × CSVMetadata))
       (ec : Option String) (e1 : String),
      (attemptOnce qe 0 q sch ec).1 = .error e1 → e1 ≠ "" →
      ∃ t, (generate_and_execute_query qe q sch ec).2 =
        (attemptOnce qe 0 q sch ec).2 ++
          (QEvent.genCall 1 (buildQueryPrompt q sch (some e1)) :: t)) ∧
    (∀ (qe : QueryEnv) (q : String) (sch : List (String × CSVMetadata))
       (ec : Option String) (e1 e2 : String),
      (attemptOnce qe 0 q sch ec).1 = .error e1 → e1 ≠ "" →
      (attemptOnce qe 1 q sch (some e1)).1 = .error e2 → e2 ≠ "" →
      ∃ t, (generate_and_execute_query qe q sch ec).2 =
        (attemptOnce qe 0 q sch ec).2 ++ (attemptOnce qe 1 q sch (some e1)).2 ++
          (QEvent.genCall 2 (buildQueryPrompt q sch (some e2)) :: t)) ∧
    (∀ (qe : QueryEnv) (q : String) (sch : List (String × CSVMetadata))
       (ec : Option String) (v : String × List Row),
      (attemptOnce qe 0 q sch ec).1 = .ok v →
      generate_and_execute_query qe q sch ec = (.ok v, (attemptOnce qe 0 q sch ec).2) ∧
      countQGen (attemptOnce qe 0 q sch ec).2 = 1 ∧
      countQExec (attemptOnce qe 0 q sch ec).2 = 1) := by
  refine ⟨?_, ?_, ?_, ?_⟩
  · intro qe q sch ec
    obtain ⟨t0, ht0⟩ := attemptOnce_events_cons qe 0 q sch ec
    cases hr0 : (attemptOnce qe 0 q sch ec).1 with
    | ok v =>
      rw [cycle_ok0 qe q sch ec v hr0]
      exact ⟨t0, by rw [ht0]⟩
    | error e1 =>
      cases hr1 : (attemptOnce qe 1 q sch
          (if truthy (some e1) then some e1 else ec)).1 with
      | ok v =>
        rw [cycle_ok1 qe q sch ec e1 v hr0 hr1]
        exact ⟨t0 ++ (attemptOnce qe 1 q sch
          (if truthy (some e1) then some e1 else ec)).2, by rw [ht0]; simp⟩
      | error e2 =>
        cases hr2 : (attemptOnce qe 2 q sch
            (if truthy (some e2) then some e2 else ec)).1 with
        | ok v =>
          rw [cycle_ok2 qe q sch ec e1 e2 v hr0 hr1 hr2]
          refine ⟨t0 ++ ((attemptOnce qe 1 q sch
            (if truthy (some e1) then some e1 else ec)).2 ++
            (attemptOnce qe 2 q sch
              (if truthy (some e2) then some e2 else ec)).2), by rw [ht0]; simp⟩
        | error e3 =>
          rw [cycle_err qe q sch ec e1 e2 e3 hr0 hr1 hr2]
          refine ⟨t0 ++ ((attemptOnce qe 1 q sch
            (if truthy (some e1) then some e1 else ec)).2 ++
            (attemptOnce qe 2 q sch
              (if truthy (some e2) then some e2 else ec)).2), by rw [ht0]; simp⟩
  · intro qe q sch ec e1 hr0 he1
    have hif : (if truthy (some e1) then some e1 else ec) = some e1 :=
      if_pos (truthy_some_ne e1 he1)
    obtain ⟨t1, ht1⟩ := attemptOnce_events_cons qe 1 q sch (some e1)
    cases hr1 : (attemptOnce qe 1 q sch (some e1)).1 with
    | ok v =>
      rw [cycle_ok1 qe q sch ec e1 v hr0 (by rw [hif]; exact hr1), hif, ht1]
      exact ⟨t1, rfl⟩
    | error e2 =>
      cases hr2 : (attemptOnce qe 2 q sch
          (if truthy (some e2) then some e2 else ec)).1 with
      | ok v =>
        rw [cycle_ok2 qe q sch ec e1 e2 v hr0 (by rw [hif]; exact hr1) hr2, hif, ht1]
        exact ⟨t1 ++ (attemptOnce qe 2 q sch
          (if truthy (some e2) then some e2 else ec)).2, by simp⟩
      | error e3 =>
        rw [cycle_err qe q sch ec e1 e2 e3 hr0 (by rw [hif]; exact hr1) hr2, hif, ht1]
        exact ⟨t1 ++ (attemptOnce qe 2 q sch
          (if truthy (some e2) then some e2 else ec)).2, by simp⟩
  · intro qe q sch ec e1 e2 hr0 he1 hr1 he2
    have hif1 : (if truthy (some e1) then some e1 else ec) = some e1 :=
      if_pos (truthy_some_ne e1 he1)
    have hif2 : (if truthy (some e2) then some e2 else ec) = some e2 :=
      if_pos (truthy_some_ne e2 he2)
    obtain ⟨t2, ht2⟩ := attemptOnce_events_cons qe 2 q sch (some e2)
    cases hr2 : (attemptOnce qe 2 q sch (some e2)).1 with
    | ok v =>
      rw [cycle_ok2 qe q sch ec e1 e2 v hr0 (by rw [hif1]; exact hr1)
        (by rw [hif2]; exact hr2), hif1, hif2, ht2]
      exact ⟨t2, by simp⟩
    | error e3 =>
      rw [cycle_err qe q sch ec e1 e2 e3 hr0 (by rw [hif1]; exact hr1)
        (by rw [hif2]; exact hr2), hif1, hif2, ht2]
      exact ⟨t2, by simp⟩
  · intro qe q sch ec v hr0
    refine ⟨cycle_ok0 qe q sch ec v hr0, ?_, ?_⟩
    · rw [attemptOnce_ok_events qe 0 q sch ec v hr0]
      simp [countQGen, List.countP_cons]
    · rw [attemptOnce_ok_events qe 0 q sch ec v hr0]
      simp [countQExec, List.countP_cons]

/-- Engine whose first execution fails with an empty error text. -/
def qeEmptyErr : QueryEnv :=
  { gen := fun a _ => .ok (if a == 0 then "S0" else "S1"),
    exec := fun a _ => if a == 0 then .error "" else .ok [[("x", "1")]] }

set_option maxRecDepth 8000 in
/-- C5 counterexample: attempt 1 fails in execution with the empty error
text; the generation prompt of attempt 2 then still carries the external
feedback `F` — not the error text of the preceding attempt, whose prompt would
differ — refuting the unconditional supersession. -/
theorem c5_counterexample :
    (generate_and_execute_query qeEmptyErr "q" [("a", metaA)] (some "F")).2 =
      [QEvent.genCall 0 (buildQueryPrompt "q" [("a", metaA)] (some "F")),
       QEvent.execCall 0 "S0",
       QEvent.genCall 1 (buildQueryPrompt "q" [("a", metaA)] (some "F")),
       QEvent.execCall 1 "S1"] ∧
    buildQueryPrompt "q" [("a", metaA)] (some "F") ≠
      buildQueryPrompt "q" [("a", metaA)] (some "") :=
  ⟨rfl, by decide⟩

/-- Engine for the C5 witness: attempt 1 fails with a nonempty text,
attempt 2 succeeds. -/
def qeFailThenOK : QueryEnv :=
  { gen := fun a _ => .ok (if a == 0 then "S0" else "S1"),
    exec := fun a _ => if a == 0 then .error "boom" else .ok [[("x", "1")]] }

/-- C5 witness: the amended conjuncts on concrete engines. -/
theorem c5_witness :
    (∃ t, (generate_and_execute_query qeFailThenOK "q" [("a", metaA)] (some "F")).2 =
      QEvent.genCall 0 (buildQueryPrompt "q" [("a", metaA)] (some "F")) :: t) ∧
    (∃ t, (generate_and_execute_query qeFailThenOK "q" [("a", metaA)] (some "F")).2 =
      (attemptOnce qeFailThenOK 0 "q" [("a", metaA)] (some "F")).2 ++
        (QEvent.genCall 1 (buildQueryPrompt "q" [("a", metaA)] (some "boom")) :: t)) ∧
    (generate_and_execute_query qeOK "q" [("a", metaA)] none =
      (.ok ("SELECT 1", [[("x", "1")]]),
        (attemptOnce qeOK 0 "q" [("a", metaA)] none).2) ∧
      countQGen (attemptOnce qeOK 0 "q" [("a", metaA)] none).2 = 1 ∧
      countQExec (attemptOnce qeOK 0 "q" [("a", metaA)] none).2 = 1) :=
  ⟨c5_amended.1 qeFailThenOK "q" [("a", metaA)] (some "F"),
   c5_amended.2.1 qeFailThenOK "q" [("a", metaA)] (some "F") "boom" rfl (by decide),
   c5_amended.2.2.2 qeOK "q" [("a", metaA)] none ("SELECT 1", [[("x", "1")]]) rfl⟩

end RetailAssistant
